import Mathlib

/-!
Verification of `src/imitation/scripts/eval_policy.py`.

The script orchestrates: stopping-condition construction
(`rollout.make_sample_until`), vectorized-environment construction
(`util.make_vec_env`), optional wrapping by `InteractiveRender` and
`reward_wrapper.RewardVecEnvWrapper`, scoped loading of a reward function and
a policy, trajectory generation (`rollout.generate_trajectories`) and
statistics aggregation (`rollout.rollout_stats`).

Only `eval_policy.py` itself is in the repository fragment; the helpers it
calls from `imitation.data.rollout`, `imitation.util.reward_wrapper` and
`imitation.util.util` are modelled from the specification (each such
definition's doc comment says so).  The vectorized environment built by
`util.make_vec_env` is treated as an opaque transition system, matching the
spec's decision to treat environment internals as an external service; side
effects (rendering, sleeping) are recorded in an explicit event trace, and
the resource/ordering behaviour of `eval_policy` is recorded in a trace of
high-level events.
-/

/-- Observations, actions and rewards as they flow through the wrappers.
`eval_policy.py` never inspects their contents, so scalar stand-ins suffice:
rewards are rationals (the reward arithmetic of the statistics aggregator is
exact over ℚ). -/
abbrev Obs := Int

abbrev Act := Int

abbrev Rew := ℚ

/-- Side effects a (possibly wrapped) environment can perform during
`reset`/`step`: rendering a frame, or sleeping for a duration in seconds. -/
inductive Event where
  | render : Event
  | sleep (duration : ℚ) : Event
  deriving DecidableEq, Repr

/-- A vectorized environment, seen through the only interface
`eval_policy.py` uses: `reset` returning an observation and `step` returning
(observation, reward, done).  The state type `σ` is abstract — the spec treats
the environment internals as an opaque external dependency — and each call
also reports the list of side effects it performed, in order. -/
structure VecEnv (σ : Type) where
  reset_fn : σ → σ × Obs × List Event
  step_fn : σ → Act → σ × Obs × Rew × Bool × List Event

/-- `InteractiveRender` from `eval_policy.py`: a `VecEnvWrapper` whose
`reset` forwards to the wrapped environment, then renders, and returns the
wrapped environment's observation unchanged; whose `step_wait` forwards the
step, then sleeps `1 / render_fps` seconds if `render_fps > 0`, then renders,
and returns the wrapped environment's step result unchanged. -/
def InteractiveRender (venv : VecEnv σ) (render_fps : Int) : VecEnv σ where
  reset_fn s :=
    let r := venv.reset_fn s
    (r.1, r.2.1, r.2.2 ++ [Event.render])
  step_fn s a :=
    let r := venv.step_fn s a
    (r.1, r.2.1, r.2.2.1, r.2.2.2.1,
      r.2.2.2.2
        ++ (if render_fps > 0 then [Event.sleep (1 / (render_fps : ℚ))] else [])
        ++ [Event.render])

/-- Modelled from the spec:
`imitation.util.reward_wrapper.RewardVecEnvWrapper` is not part of the
repository fragment.  Per §4.3, it "wraps a vectorized environment so that
every step's reward is recomputed by a supplied reward function instead of
the environment's native reward; all other step/reset semantics pass through
unchanged", the reward function mapping (state, action, next-state) to a
scalar (§3, RewardOverride).  The wrapper remembers the previous observation
(set at reset and after every step) to serve as the reward function's
"state" argument; before the first reset no previous observation exists
(`none`) — the rollout engine always resets first, so that branch is never
reached in `eval_policy`, and there it passes the native reward through. -/
def RewardVecEnvWrapper (venv : VecEnv σ) (reward_fn : Obs → Act → Obs → Rew) :
    VecEnv (σ × Option Obs) where
  reset_fn p :=
    let r := venv.reset_fn p.1
    ((r.1, some r.2.1), r.2.1, r.2.2)
  step_fn p a :=
    let r := venv.step_fn p.1 a
    match p.2 with
    | some oldObs => ((r.1, some r.2.1), r.2.1, reward_fn oldObs a r.2.1, r.2.2.2.1, r.2.2.2.2)
    | none => ((r.1, some r.2.1), r.2.1, r.2.2.1, r.2.2.2.1, r.2.2.2.2)

/-- A concrete deterministic environment used only to instantiate witness
theorems: state counts steps, native reward is 7, an episode ends every
third step, and no side effects are performed. -/
def testEnv : VecEnv Nat where
  reset_fn s := (s + 1, (s : Int), [])
  step_fn s _ := (s + 1, (s : Int), 7, s % 3 == 2, [])

example : (InteractiveRender testEnv 0).step_fn 5 9 = (6, 5, 7, true, [Event.render]) := by
  decide

/-- One step of a trajectory: the observation produced by the step
(the next-state), the action taken, the reward received and the done flag
(§3, Trajectory: "an ordered sequence of (observation, action, reward, done)
steps for one episode"). -/
structure TrajStep where
  obs : Obs
  act : Act
  rew : Rew
  done : Bool
  deriving DecidableEq, Repr

/-- A collected trajectory: the observation the episode started from (the
reset observation) and the sequence of steps taken until the done signal. -/
structure Trajectory where
  initObs : Obs
  steps : List TrajStep
  deriving DecidableEq, Repr

/-- Length of a trajectory in timesteps. -/
def Trajectory.len (t : Trajectory) : Nat := t.steps.length

/-- Sum of the rewards of a trajectory (its return). -/
def Trajectory.ret (t : Trajectory) : Rew := (t.steps.map TrajStep.rew).sum

/-- Total number of timesteps across a list of trajectories. -/
def totalTimesteps (trajs : List Trajectory) : Nat := (trajs.map Trajectory.len).sum

/-- `True` iff the trajectory's final step carries the done signal (and the
trajectory is nonempty). -/
def Trajectory.endsDone (t : Trajectory) : Bool :=
  match t.steps.getLast? with
  | some st => st.done
  | none => false

/-- Modelled from the spec:
`imitation.data.rollout.make_sample_until` is not part of the repository
fragment.  Per §3 (StoppingCondition) and §7, it builds the stopping
predicate over the trajectories collected so far; "exactly one of 'minimum
episodes' or 'minimum timesteps' must be configured, never both, never
neither", and violating that "is a configuration error".  With
`n_timesteps = T` the condition is "at least `T` elapsed timesteps"; with
`n_episodes = K` it is "at least `K` completed episodes" (§8). -/
def make_sample_until (n_timesteps n_episodes : Option Nat) :
    Except String (List Trajectory → Bool) :=
  match n_timesteps, n_episodes with
  | some t, none => .ok fun trajs => t ≤ totalTimesteps trajs
  | none, some e => .ok fun trajs => e ≤ trajs.length
  | some _, some _ => .error "Set exactly one of n_timesteps and n_episodes: both were set"
  | none, none => .error "Set exactly one of n_timesteps and n_episodes: neither was set"

/-- Modelled from the spec (rollout engine, §4.4): the inner loop of one
episode.  Starting from environment state `s` with current observation `ob`,
query the policy for an action, step the environment, record the step, and
continue until the done signal.  `fuel` bounds the number of steps; `none`
models a rollout that does not reach an episode boundary within the budget
(an aborted run). -/
def episodeSteps (policy : Obs → Act) (venv : VecEnv σ) :
    σ → Obs → Nat → Option (List TrajStep × σ)
  | _, _, 0 => none
  | s, ob, fuel + 1 =>
    let a := policy ob
    let r := venv.step_fn s a
    let st : TrajStep := ⟨r.2.1, a, r.2.2.1, r.2.2.2.1⟩
    if r.2.2.2.1 then some ([st], r.1)
    else (episodeSteps policy venv r.1 r.2.1 fuel).map fun pr => (st :: pr.1, pr.2)

/-- Modelled from the spec (rollout engine, §4.4): run one complete episode:
reset the environment, then step until the done signal.  Every trajectory
this produces "starts at a reset" (its `initObs` is the reset observation)
and "ends at a done signal". -/
def runEpisode (policy : Obs → Act) (venv : VecEnv σ) (s : σ) (fuel : Nat) :
    Option (Trajectory × σ) :=
  let r := venv.reset_fn s
  (episodeSteps policy venv r.1 r.2.1 fuel).map fun pr => (⟨r.2.1, pr.1⟩, pr.2)

/-- Modelled from the spec (rollout engine, §4.4): the outer collection
loop.  The stopping condition is consulted over the completed trajectories;
while it is unsatisfied another full episode is run to completion, so
episodes in flight when the threshold is crossed are finished before
returning and no truncated trajectory is ever emitted. -/
def collectLoop (policy : Obs → Act) (venv : VecEnv σ)
    (sample_until : List Trajectory → Bool) :
    List Trajectory → σ → Nat → Option (List Trajectory)
  | _, _, 0 => none
  | acc, s, fuel + 1 =>
    if sample_until acc then some acc
    else
      match runEpisode policy venv s fuel with
      | none => none
      | some pr => collectLoop policy venv sample_until (acc ++ [pr.1]) pr.2 fuel

/-- Modelled from the spec:
`imitation.data.rollout.generate_trajectories` is not part of the repository
fragment.  Per §4.4 it "repeatedly queries the policy for actions and steps
the environment until the stopping condition is satisfied ...; returns the
completed trajectories", guaranteeing "every trajectory is well-formed
(starts at a reset, ends at a done signal)" with no truncated episodes.
`none` models an exception raised mid-run (the step budget `fuel`
exhausted). -/
def generate_trajectories (policy : Obs → Act) (venv : VecEnv σ) (s : σ)
    (sample_until : List Trajectory → Bool) (fuel : Nat) : Option (List Trajectory) :=
  collectLoop policy venv sample_until [] s fuel

/-- Summary statistics over a batch of trajectories.  The standard
deviations are represented by their squares (`return_var`, `len_var`), which
keeps the aggregator exact over ℚ; the standard deviation of the spec is
their (monotone, injective on nonnegatives) square root. -/
structure Stats where
  n_traj : Nat
  return_mean : ℚ
  return_var : ℚ
  len_mean : ℚ
  len_var : ℚ
  deriving DecidableEq, Repr

/-- Arithmetic mean of a list of rationals (0 on the empty list, which the
aggregator never reaches). -/
def listMean (xs : List ℚ) : ℚ := xs.sum / xs.length

/-- Population variance of a list of rationals: the square of the standard
deviation. -/
def listVar (xs : List ℚ) : ℚ :=
  (xs.map fun x => (x - listMean xs) ^ 2).sum / xs.length

/-- Modelled from the spec:
`imitation.data.rollout.rollout_stats` is not part of the repository
fragment.  Per §4.5 it must, "given a sequence of trajectories, compute
count, mean, and standard deviation of per-episode return and per-episode
length"; and it "fails if given an empty sequence" (§7: "Statistics
aggregation over zero trajectories is an error").  Standard deviations are
carried as variances (their squares); see `Stats`. -/
def rollout_stats (trajs : List Trajectory) : Except String Stats :=
  if trajs.isEmpty then
    .error "rollout_stats: empty list of trajectories"
  else
    let rets := trajs.map Trajectory.ret
    let lens := trajs.map fun t => ((t.len : ℚ))
    .ok
      { n_traj := trajs.length
        return_mean := listMean rets
        return_var := listVar rets
        len_mean := listMean lens
        len_var := listVar lens }

example :
    (rollout_stats [⟨0, [⟨0, 0, 1, true⟩]⟩, ⟨0, [⟨0, 0, 2, true⟩]⟩, ⟨0, [⟨0, 0, 3, true⟩]⟩]).toOption
      = some ⟨3, 2, 2/3, 1, 0⟩ := by
  norm_num [rollout_stats, listMean, listVar, Trajectory.ret, Trajectory.len, Stats.mk.injEq,
    Except.toOption]

/-- The orchestration-level events `eval_policy` performs, in program order:
building the stopping condition, constructing the vectorized environment,
applying each wrapper, entering (acquiring) and exiting (releasing) the
scoped reward-function and policy resources. -/
inductive TraceEv where
  | makeSampleUntil : TraceEv
  | makeVecEnv : TraceEv
  | wrapRender : TraceEv
  | acquireReward : TraceEv
  | wrapReward : TraceEv
  | acquirePolicy : TraceEv
  | releasePolicy : TraceEv
  | releaseReward : TraceEv
  deriving DecidableEq, Repr

/-- The ways `eval_policy` can fail: the `ValueError` from
`make_sample_until` on a bad timestep/episode configuration, an exception
raised by `rollout.generate_trajectories` mid-run, or a failure of
`rollout.rollout_stats`. -/
inductive EvalError where
  | configError (msg : String) : EvalError
  | rolloutAborted : EvalError
  | statsError (msg : String) : EvalError
  deriving DecidableEq, Repr

/-- The configuration fields of `eval_policy` that influence the behaviour
modelled here.  The remaining fields (`env_name`, `_seed`, `num_vec`,
`parallel`, `log_dir`, `max_episode_steps`) are consumed by
`util.make_vec_env`, which is abstracted as the `venv` argument below;
`policy_type`/`policy_path` and `reward_path` select the deserialized
artifacts, abstracted as the `policy` and `reward_fn` arguments. -/
structure EvalConfig where
  eval_n_timesteps : Option Nat
  eval_n_episodes : Option Nat
  render : Bool
  render_fps : Int
  reward_type : Option String

/-- The environment after the optional `InteractiveRender` wrapping at
`eval_policy.py` line 100: `if render: venv = InteractiveRender(venv,
render_fps)`. -/
def renderedEnv (cfg : EvalConfig) (venv : VecEnv σ) : VecEnv σ :=
  if cfg.render then InteractiveRender venv cfg.render_fps else venv

/-- The environment `eval_policy` rolls the policy out in when
`reward_type` is set: the reward wrapper (line 107) applied outside the
optional render wrapper (line 100). -/
def rolloutEnv (cfg : EvalConfig) (venv : VecEnv σ) (reward_fn : Obs → Act → Obs → Rew) :
    VecEnv (σ × Option Obs) :=
  RewardVecEnvWrapper (renderedEnv cfg venv) reward_fn

/-- The step of `eval_policy` after the rollout: an exception from
`generate_trajectories` (modelled as `none`) propagates; otherwise the
aggregated statistics of the collected trajectories are the result
(`return rollout.rollout_stats(trajs)`). -/
def finishRun : Option (List Trajectory) → Except EvalError Stats
  | none => .error .rolloutAborted
  | some trajs => (rollout_stats trajs).mapError .statsError

/-- The body of `eval_policy` from `eval_policy.py`, in program order:

1. `sample_until = rollout.make_sample_until(eval_n_timesteps,
   eval_n_episodes)` — may raise the configuration error;
2. `venv = util.make_vec_env(...)` — abstracted as the given `venv`/`s0`;
3. `if render: venv = InteractiveRender(venv, render_fps)`;
4. inside a `contextlib.ExitStack`: if `reward_type is not None`, the
   reward function is loaded and entered on the stack and the environment is
   wrapped in `RewardVecEnvWrapper`;
5. inside `with serialize.load_policy(...) as policy`, the trajectories are
   generated; leaving the `with` releases the policy, then leaving the
   `ExitStack` releases the reward function — on the normal path and on the
   exceptional path (`generate_trajectories` raising, modelled as `none`)
   alike;
6. `return rollout.rollout_stats(trajs)`.

The filesystem/logging side effects of lines 88–92 are irrelevant to every
claim and are not modelled.  The second component is the trace of
orchestration events in the order they happened.  The scoped resources are
released on both exit paths of the rollout — hence the release events appear
in the trace whether `generate_trajectories` returns trajectories or raises
(returns `none`); `finishRun` above turns the rollout outcome into the
command's result. -/
def eval_policy (cfg : EvalConfig) (venv : VecEnv σ) (s0 : σ) (policy : Obs → Act)
    (reward_fn : Obs → Act → Obs → Rew) (fuel : Nat) :
    Except EvalError Stats × List TraceEv :=
  match make_sample_until cfg.eval_n_timesteps cfg.eval_n_episodes with
  | .error msg => (.error (.configError msg), [.makeSampleUntil])
  | .ok sample_until =>
    let tr0 : List TraceEv :=
      [.makeSampleUntil, .makeVecEnv] ++ (if cfg.render then [.wrapRender] else [])
    match cfg.reward_type with
    | none =>
      (finishRun (generate_trajectories policy (renderedEnv cfg venv) s0 sample_until fuel),
        tr0 ++ [.acquirePolicy, .releasePolicy])
    | some _ =>
      (finishRun (generate_trajectories policy (rolloutEnv cfg venv reward_fn) (s0, none)
          sample_until fuel),
        tr0 ++ [.acquireReward, .wrapReward, .acquirePolicy, .releasePolicy, .releaseReward])

/-- `true` iff every reward along the list of steps equals the supplied
reward function applied to (previous observation, action, next observation),
starting from `prev`. -/
def rewardsFromB (reward_fn : Obs → Act → Obs → Rew) : Obs → List TrajStep → Bool
  | _, [] => true
  | prev, st :: rest =>
    decide (st.rew = reward_fn prev st.act st.obs) && rewardsFromB reward_fn st.obs rest

/-- `true` iff every reward of the trajectory equals the supplied reward
function applied to that step's (state, action, next-state), the first
state being the reset observation. -/
def rewardsMatch (reward_fn : Obs → Act → Obs → Rew) (t : Trajectory) : Bool :=
  rewardsFromB reward_fn t.initObs t.steps

theorem getLast?_cons_of_some {α : Type} {a x : α} {l : List α} (h : l.getLast? = some x) :
    (a :: l).getLast? = some x := by
  cases l with
  | nil => simp at h
  | cons b t => rw [List.getLast?_cons_cons]; exact h

theorem collectLoop_sample_until {σ : Type} (policy : Obs → Act) (venv : VecEnv σ)
    (su : List Trajectory → Bool) (fuel : Nat) :
    ∀ (acc : List Trajectory) (s : σ) (trajs : List Trajectory),
      collectLoop policy venv su acc s fuel = some trajs → su trajs = true := by
  induction fuel with
  | zero => intro acc s trajs h; simp [collectLoop] at h
  | succ n ih =>
    intro acc s trajs h
    rw [collectLoop] at h
    split at h
    · injection h with h; subst h; assumption
    · split at h
      · exact absurd h (by simp)
      · exact ih _ _ _ h

theorem collectLoop_mem {σ : Type} (policy : Obs → Act) (venv : VecEnv σ)
    (su : List Trajectory → Bool) (fuel : Nat) :
    ∀ (acc : List Trajectory) (s : σ) (trajs : List Trajectory),
      collectLoop policy venv su acc s fuel = some trajs →
      ∀ t ∈ trajs, t ∈ acc ∨ ∃ (n : Nat) (s0 s1 : σ), runEpisode policy venv s0 n = some (t, s1) := by
  induction fuel with
  | zero => intro acc s trajs h; simp [collectLoop] at h
  | succ n ih =>
    intro acc s trajs h t ht
    rw [collectLoop] at h
    split at h
    · injection h with h; subst h; exact Or.inl ht
    · split at h
      · exact absurd h (by simp)
      · rename_i pr hre
        rcases ih _ _ _ h t ht with hacc | hrun
        · rcases List.mem_append.mp hacc with h1 | h1
          · exact Or.inl h1
          · refine Or.inr ⟨n, s, pr.2, ?_⟩
            rw [List.mem_singleton] at h1
            subst h1
            exact hre
        · exact Or.inr hrun

theorem episodeSteps_last_done {σ : Type} (policy : Obs → Act) (venv : VecEnv σ) (fuel : Nat) :
    ∀ (s : σ) (ob : Obs) (steps : List TrajStep) (s1 : σ),
      episodeSteps policy venv s ob fuel = some (steps, s1) →
      ∃ st, steps.getLast? = some st ∧ st.done = true := by
  induction fuel with
  | zero => intro s ob steps s1 h; simp [episodeSteps] at h
  | succ n ih =>
    intro s ob steps s1 h
    rw [episodeSteps] at h
    split at h
    · rename_i hdn
      injection h with h
      injection h with h1 h2
      subst h1
      exact ⟨⟨(venv.step_fn s (policy ob)).2.1, policy ob, (venv.step_fn s (policy ob)).2.2.1,
        (venv.step_fn s (policy ob)).2.2.2.1⟩, by simp, hdn⟩
    · rcases Option.map_eq_some'.mp h with ⟨pr, hpr, heq⟩
      injection heq with h1 h2
      subst h1
      rcases ih _ _ _ _ hpr with ⟨st, hlast, hdone⟩
      exact ⟨st, getLast?_cons_of_some hlast, hdone⟩

theorem runEpisode_shape {σ : Type} (policy : Obs → Act) (venv : VecEnv σ) (fuel : Nat)
    (s : σ) (t : Trajectory) (s1 : σ) (h : runEpisode policy venv s fuel = some (t, s1)) :
    t.endsDone = true ∧ t.initObs = (venv.reset_fn s).2.1 := by
  rw [runEpisode] at h
  rcases Option.map_eq_some'.mp h with ⟨pr, hpr, heq⟩
  injection heq with h1 h2
  subst h1
  rcases episodeSteps_last_done policy venv fuel _ _ _ _ hpr with ⟨st, hlast, hdone⟩
  constructor
  · rw [Trajectory.endsDone]
    simp only [hlast]
    exact hdone
  · rfl

theorem RewardVecEnvWrapper_step_some {σ : Type} (venv : VecEnv σ)
    (reward_fn : Obs → Act → Obs → Rew) (s : σ) (o : Obs) (a : Act) :
    (RewardVecEnvWrapper venv reward_fn).step_fn (s, some o) a =
      (((venv.step_fn s a).1, some (venv.step_fn s a).2.1), (venv.step_fn s a).2.1,
        reward_fn o a (venv.step_fn s a).2.1, (venv.step_fn s a).2.2.2.1,
        (venv.step_fn s a).2.2.2.2) := rfl

theorem RewardVecEnvWrapper_reset {σ : Type} (venv : VecEnv σ)
    (reward_fn : Obs → Act → Obs → Rew) (p : σ × Option Obs) :
    (RewardVecEnvWrapper venv reward_fn).reset_fn p =
      (((venv.reset_fn p.1).1, some (venv.reset_fn p.1).2.1), (venv.reset_fn p.1).2.1,
        (venv.reset_fn p.1).2.2) := rfl

theorem episodeSteps_rewards {σ : Type} (policy : Obs → Act) (venv : VecEnv σ)
    (reward_fn : Obs → Act → Obs → Rew) (fuel : Nat) :
    ∀ (s : σ) (ob : Obs) (steps : List TrajStep) (q1 : σ × Option Obs),
      episodeSteps policy (RewardVecEnvWrapper venv reward_fn) (s, some ob) ob fuel
        = some (steps, q1) →
      rewardsFromB reward_fn ob steps = true := by
  induction fuel with
  | zero => intro s ob steps q1 h; simp [episodeSteps] at h
  | succ n ih =>
    intro s ob steps q1 h
    rw [episodeSteps] at h
    simp only [RewardVecEnvWrapper_step_some] at h
    split at h
    · injection h with h
      injection h with h1 h2
      subst h1
      simp [rewardsFromB]
    · rcases Option.map_eq_some'.mp h with ⟨pr, hpr, heq⟩
      injection heq with h1 h2
      subst h1
      have hrec := ih _ _ _ _ hpr
      simp [rewardsFromB, hrec]

theorem runEpisode_rewards {σ : Type} (policy : Obs → Act) (venv : VecEnv σ)
    (reward_fn : Obs → Act → Obs → Rew) (fuel : Nat) (q : σ × Option Obs)
    (t : Trajectory) (q1 : σ × Option Obs)
    (h : runEpisode policy (RewardVecEnvWrapper venv reward_fn) q fuel = some (t, q1)) :
    rewardsMatch reward_fn t = true := by
  rw [runEpisode] at h
  rcases Option.map_eq_some'.mp h with ⟨pr, hpr, heq⟩
  injection heq with h1 h2
  subst h1
  exact episodeSteps_rewards policy venv reward_fn fuel _ _ _ _ hpr

theorem rewardsFromB_const (c : Rew) (steps : List TrajStep) :
    ∀ (prev : Obs), rewardsFromB (fun _ _ _ => c) prev steps = true →
      ∀ st ∈ steps, st.rew = c := by
  induction steps with
  | nil => intro prev _ st hst; simp at hst
  | cons a l ih =>
    intro prev h st hst
    rw [rewardsFromB, Bool.and_eq_true] at h
    rcases h with ⟨h1, h2⟩
    rcases List.mem_cons.mp hst with rfl | hmem
    · exact of_decide_eq_true h1
    · exact ih _ h2 st hmem

theorem generate_trajectories_sound {σ : Type} (policy : Obs → Act) (venv : VecEnv σ)
    (s : σ) (su : List Trajectory → Bool) (fuel : Nat) (trajs : List Trajectory)
    (h : generate_trajectories policy venv s su fuel = some trajs) :
    su trajs = true ∧
      ∀ t ∈ trajs, ∃ (n : Nat) (s0 s1 : σ), runEpisode policy venv s0 n = some (t, s1) := by
  constructor
  · exact collectLoop_sample_until policy venv su fuel [] s trajs h
  · intro t ht
    rcases collectLoop_mem policy venv su fuel [] s trajs h t ht with hacc | hrun
    · simp at hacc
    · exact hrun

/-- First trajectory `generate_trajectories` collects on `testEnv` from
state 0 with the zero policy. -/
def testTraj1 : Trajectory := ⟨0, [⟨1, 0, 7, false⟩, ⟨2, 0, 7, true⟩]⟩

/-- Second trajectory `generate_trajectories` collects on `testEnv` from
state 0 with the zero policy. -/
def testTraj2 : Trajectory := ⟨3, [⟨4, 0, 7, false⟩, ⟨5, 0, 7, true⟩]⟩

/-- The trajectory collected on `testEnv` wrapped in the constant-5 reward
override. -/
def testTraj5 : Trajectory := ⟨0, [⟨1, 0, 5, false⟩, ⟨2, 0, 5, true⟩]⟩

/-- C6: `InteractiveRender` is a pure pass-through with side effects only:
`reset` returns exactly the wrapped environment's reset observation after
triggering a render, and `step_wait` returns exactly the wrapped
environment's step result unchanged (same observation, reward, done flag)
after the optional frame-rate-capping sleep and a render. -/
theorem C6_interactive_render_passthrough {σ : Type} (venv : VecEnv σ) (fps : Int)
    (s : σ) (a : Act) :
    (InteractiveRender venv fps).reset_fn s =
        ((venv.reset_fn s).1, (venv.reset_fn s).2.1,
          (venv.reset_fn s).2.2 ++ [Event.render]) ∧
    (InteractiveRender venv fps).step_fn s a =
        ((venv.step_fn s a).1, (venv.step_fn s a).2.1, (venv.step_fn s a).2.2.1,
          (venv.step_fn s a).2.2.2.1,
          (venv.step_fn s a).2.2.2.2
            ++ (if fps > 0 then [Event.sleep (1 / (fps : ℚ))] else [])
            ++ [Event.render]) :=
  ⟨rfl, rfl⟩

/-- C10: when `render_fps ≤ 0` (including 0), `InteractiveRender.step_wait`
adds no sleep — in particular the division `1 / render_fps` is never
reached, so no division-by-zero occurs — while it still renders and returns
the wrapped environment's step result unchanged; the sleep of
`1 / render_fps` seconds happens exactly when `render_fps > 0`. -/
theorem C10_no_sleep_nonpositive_fps {σ : Type} (venv : VecEnv σ) (fps : Int)
    (s : σ) (a : Act) :
    (fps ≤ 0 →
      (InteractiveRender venv fps).step_fn s a =
        ((venv.step_fn s a).1, (venv.step_fn s a).2.1, (venv.step_fn s a).2.2.1,
          (venv.step_fn s a).2.2.2.1, (venv.step_fn s a).2.2.2.2 ++ [Event.render])) ∧
    (0 < fps →
      (InteractiveRender venv fps).step_fn s a =
        ((venv.step_fn s a).1, (venv.step_fn s a).2.1, (venv.step_fn s a).2.2.1,
          (venv.step_fn s a).2.2.2.1,
          (venv.step_fn s a).2.2.2.2 ++ [Event.sleep (1 / (fps : ℚ)), Event.render])) := by
  constructor
  · intro h
    simp [InteractiveRender, not_lt.mpr h]
  · intro h
    simp [InteractiveRender, h]

/-- Witness for C10 on `testEnv`: with `render_fps = 0` the step emits only
a render; with `render_fps = 2` it emits the half-second sleep and the
render; the payload is the wrapped step result in both cases. -/
theorem C10_no_sleep_nonpositive_fps_witness :
    (InteractiveRender testEnv 0).step_fn 5 9 = (6, 5, 7, true, [Event.render]) ∧
    (InteractiveRender testEnv 2).step_fn 5 9 =
      (6, 5, 7, true, [Event.sleep (1 / ((2 : Int) : ℚ)), Event.render]) := by
  constructor
  · have h := (C10_no_sleep_nonpositive_fps testEnv 0 5 9).1 (by decide)
    simpa [testEnv] using h
  · have h := (C10_no_sleep_nonpositive_fps testEnv 2 5 9).2 (by decide)
    simpa [testEnv] using h

/-- C4: every trajectory returned by the rollout engine is well-formed: its
final step carries the done signal (no truncated episodes), and it is the
complete output of a single reset-to-done episode — it begins at an
environment reset, its initial observation being a reset observation. -/
theorem C4_trajectories_wellformed {σ : Type} (policy : Obs → Act) (venv : VecEnv σ)
    (s : σ) (su : List Trajectory → Bool) (fuel : Nat) (trajs : List Trajectory)
    (h : generate_trajectories policy venv s su fuel = some trajs) :
    ∀ t ∈ trajs, t.endsDone = true ∧
      ∃ (n : Nat) (s0 s1 : σ), runEpisode policy venv s0 n = some (t, s1) ∧
        t.initObs = (venv.reset_fn s0).2.1 := by
  intro t ht
  rcases (generate_trajectories_sound policy venv s su fuel trajs h).2 t ht with ⟨n, s0, s1, hrun⟩
  rcases runEpisode_shape policy venv n s0 t s1 hrun with ⟨hdone, hinit⟩
  exact ⟨hdone, n, s0, s1, hrun, hinit⟩

/-- Witness for C4: a two-episode rollout on `testEnv`; both returned
trajectories end at a done signal. -/
theorem C4_trajectories_wellformed_witness :
    Trajectory.endsDone testTraj1 = true ∧ Trajectory.endsDone testTraj2 = true := by
  have h := C4_trajectories_wellformed (fun _ => 0) testEnv 0
      (fun ts => decide (2 ≤ ts.length)) 12 [testTraj1, testTraj2] rfl
  exact ⟨(h testTraj1 (by simp)).1, (h testTraj2 (by simp)).1⟩

/-- C5: the configured budget is a lower bound on what the rollout engine
returns: with `eval_n_episodes = K` at least `K` trajectories come back;
with `eval_n_timesteps = T` the trajectory lengths sum to at least `T`. -/
theorem C5_budget_lower_bound {σ : Type} (policy : Obs → Act) (venv : VecEnv σ) (s : σ)
    (fuel : Nat) (K T : Nat) (su : List Trajectory → Bool) (trajs : List Trajectory) :
    (make_sample_until none (some K) = .ok su →
      generate_trajectories policy venv s su fuel = some trajs → K ≤ trajs.length) ∧
    (make_sample_until (some T) none = .ok su →
      generate_trajectories policy venv s su fuel = some trajs →
        T ≤ totalTimesteps trajs) := by
  constructor
  · intro hmk hgen
    have hsu := (generate_trajectories_sound policy venv s su fuel trajs hgen).1
    have h0 : Except.ok (ε := String) (fun ts : List Trajectory => decide (K ≤ ts.length))
        = Except.ok su := by rw [← hmk]; rfl
    injection h0 with h0
    rw [← h0] at hsu
    exact of_decide_eq_true hsu
  · intro hmk hgen
    have hsu := (generate_trajectories_sound policy venv s su fuel trajs hgen).1
    have h0 : Except.ok (ε := String) (fun ts : List Trajectory => decide (T ≤ totalTimesteps ts))
        = Except.ok su := by rw [← hmk]; rfl
    injection h0 with h0
    rw [← h0] at hsu
    exact of_decide_eq_true hsu

/-- Witness for C5 on `testEnv`: an episode budget of 2 yields at least 2
trajectories, and a timestep budget of 3 yields at least 3 total steps. -/
theorem C5_budget_lower_bound_witness :
    2 ≤ ([testTraj1, testTraj2] : List Trajectory).length ∧
    3 ≤ totalTimesteps [testTraj1, testTraj2] := by
  constructor
  · exact (C5_budget_lower_bound (fun _ => 0) testEnv 0 12 2 3
      (fun ts => decide (2 ≤ ts.length)) [testTraj1, testTraj2]).1 rfl rfl
  · exact (C5_budget_lower_bound (fun _ => 0) testEnv 0 12 2 3
      (fun ts => decide (3 ≤ totalTimesteps ts)) [testTraj1, testTraj2]).2 rfl rfl

/-- C1: with a reward override in place, every step of the wrapped
environment carries the reward recomputed by the supplied reward function
on (state, action, next-state) while observation and done flag pass through
unchanged; consequently every step of every trajectory the rollout engine
collects in the wrapped environment has its reward computed by the reward
function, and with the constant function returning 5 every collected step
reward equals 5. -/
theorem C1_reward_override {σ : Type} (venv : VecEnv σ)
    (reward_fn : Obs → Act → Obs → Rew) (policy : Obs → Act)
    (su : List Trajectory → Bool) (fuel : Nat) (q0 : σ × Option Obs)
    (trajs : List Trajectory) :
    (∀ (s : σ) (o : Obs) (a : Act),
      (RewardVecEnvWrapper venv reward_fn).step_fn (s, some o) a =
        (((venv.step_fn s a).1, some (venv.step_fn s a).2.1), (venv.step_fn s a).2.1,
          reward_fn o a (venv.step_fn s a).2.1, (venv.step_fn s a).2.2.2.1,
          (venv.step_fn s a).2.2.2.2)) ∧
    (generate_trajectories policy (RewardVecEnvWrapper venv reward_fn) q0 su fuel
        = some trajs →
      ∀ t ∈ trajs, rewardsMatch reward_fn t = true) ∧
    (generate_trajectories policy (RewardVecEnvWrapper venv (fun _ _ _ => (5 : Rew))) q0 su fuel
        = some trajs →
      ∀ t ∈ trajs, ∀ st ∈ t.steps, st.rew = 5) := by
  refine ⟨fun s o a => RewardVecEnvWrapper_step_some venv reward_fn s o a, ?_, ?_⟩
  · intro hgen t ht
    rcases (generate_trajectories_sound _ _ _ _ _ _ hgen).2 t ht with ⟨n, q, q1, hrun⟩
    exact runEpisode_rewards policy venv reward_fn n q t q1 hrun
  · intro hgen t ht st hst
    rcases (generate_trajectories_sound _ _ _ _ _ _ hgen).2 t ht with ⟨n, q, q1, hrun⟩
    have hmat := runEpisode_rewards policy venv (fun _ _ _ => (5 : Rew)) n q t q1 hrun
    exact rewardsFromB_const 5 t.steps t.initObs hmat st hst

/-- Witness for C1: rolling out on `testEnv` (native reward 7) wrapped in
the constant-5 reward override produces the trajectory `testTraj5`, whose
rewards all match the constant function — every step reward is 5. -/
theorem C1_reward_override_witness :
    rewardsMatch (fun _ _ _ => (5 : Rew)) testTraj5 = true ∧
    (∀ st ∈ testTraj5.steps, st.rew = 5) := by
  have h := C1_reward_override testEnv (fun _ _ _ => (5 : Rew)) (fun _ => 0)
    (fun ts => decide (1 ≤ ts.length)) 12 (0, none) [testTraj5]
  exact ⟨h.2.1 rfl testTraj5 (by simp), h.2.2 rfl testTraj5 (by simp)⟩

/-- C7: the statistics aggregator fails on an empty sequence of
trajectories and, on every non-empty sequence, returns the count of
episodes together with the mean and the variance (the squared standard
deviation) of per-episode return and per-episode length. -/
theorem C7_rollout_stats_contract (trajs : List Trajectory) :
    (∃ msg, rollout_stats [] = .error msg) ∧
    (trajs ≠ [] →
      ∃ s, rollout_stats trajs = .ok s ∧
        s.n_traj = trajs.length ∧
        s.return_mean = (trajs.map Trajectory.ret).sum / trajs.length ∧
        s.return_var = ((trajs.map Trajectory.ret).map
            fun x => (x - (trajs.map Trajectory.ret).sum / trajs.length) ^ 2).sum
          / trajs.length ∧
        s.len_mean = (trajs.map fun t => ((t.len : ℚ))).sum / trajs.length ∧
        s.len_var = ((trajs.map fun t => ((t.len : ℚ))).map
            fun x => (x - (trajs.map fun t => ((t.len : ℚ))).sum / trajs.length) ^ 2).sum
          / trajs.length) := by
  constructor
  · exact ⟨_, rfl⟩
  · intro hne
    have hN : trajs.isEmpty = false := by
      cases trajs with
      | nil => exact absurd rfl hne
      | cons a l => rfl
    refine ⟨⟨trajs.length, listMean (trajs.map Trajectory.ret),
      listVar (trajs.map Trajectory.ret),
      listMean (trajs.map fun t => ((t.len : ℚ))),
      listVar (trajs.map fun t => ((t.len : ℚ)))⟩, ?_, rfl, ?_, ?_, ?_, ?_⟩
    · simp only [rollout_stats, hN, Bool.false_eq_true, if_false]
    · simp [listMean]
    · simp [listVar, listMean]
    · simp [listMean]
    · simp [listVar, listMean]

/-- Witness for C7: on three one-step trajectories with returns 1, 2, 3 the
aggregator succeeds and reports mean return 2; on the empty sequence it
fails. -/
theorem C7_rollout_stats_contract_witness :
    (∃ msg, rollout_stats [] = .error msg) ∧
    ∃ s, rollout_stats [⟨0, [⟨0, 0, 1, true⟩]⟩, ⟨0, [⟨0, 0, 2, true⟩]⟩, ⟨0, [⟨0, 0, 3, true⟩]⟩]
        = .ok s ∧ s.return_mean = 2 := by
  rcases C7_rollout_stats_contract
      [⟨0, [⟨0, 0, 1, true⟩]⟩, ⟨0, [⟨0, 0, 2, true⟩]⟩, ⟨0, [⟨0, 0, 3, true⟩]⟩] with ⟨hemp, hfun⟩
  rcases hfun (by simp) with ⟨s, hok, _, hmean, _, _, _⟩
  refine ⟨hemp, s, hok, ?_⟩
  rw [hmean]
  norm_num [Trajectory.ret]

theorem finishRun_ne_configError (g : Option (List Trajectory)) (msg : String) :
    finishRun g ≠ .error (.configError msg) := by
  cases g with
  | none => simp [finishRun]
  | some trajs =>
    cases hs : rollout_stats trajs with
    | error e => simp [finishRun, Except.mapError, hs]
    | ok s => simp [finishRun, Except.mapError, hs]

theorem finishRun_ok (g : Option (List Trajectory)) (st : Stats)
    (h : finishRun g = .ok st) :
    ∃ trajs, g = some trajs ∧ rollout_stats trajs = .ok st := by
  cases g with
  | none => simp [finishRun] at h
  | some trajs =>
    refine ⟨trajs, rfl, ?_⟩
    cases hs : rollout_stats trajs with
    | error e => rw [finishRun, hs] at h; simp [Except.mapError] at h
    | ok s =>
      rw [finishRun, hs] at h
      simp [Except.mapError] at h
      rw [h]

/-- C3: a configuration setting both or neither of `eval_n_timesteps` and
`eval_n_episodes` makes `eval_policy` fail with the configuration error
from `make_sample_until`, raised before `util.make_vec_env` ever runs (no
environment-construction event in the trace); a configuration setting
exactly one of the two never produces that error. -/
theorem C3_stopping_config_validation {σ : Type} (cfg : EvalConfig) (venv : VecEnv σ)
    (s0 : σ) (policy : Obs → Act) (reward_fn : Obs → Act → Obs → Rew) (fuel : Nat) :
    (cfg.eval_n_timesteps.isSome = cfg.eval_n_episodes.isSome →
      (∃ msg, (eval_policy cfg venv s0 policy reward_fn fuel).1 = .error (.configError msg)) ∧
        TraceEv.makeVecEnv ∉ (eval_policy cfg venv s0 policy reward_fn fuel).2) ∧
    (¬ cfg.eval_n_timesteps.isSome = cfg.eval_n_episodes.isSome →
      ∀ msg, (eval_policy cfg venv s0 policy reward_fn fuel).1 ≠ .error (.configError msg)) := by
  obtain ⟨nt, ne, rend, fps, rty⟩ := cfg
  constructor
  · intro hsame
    cases nt with
    | none =>
      cases ne with
      | none => exact ⟨⟨_, rfl⟩, by simp [eval_policy, make_sample_until]⟩
      | some K => simp at hsame
    | some T =>
      cases ne with
      | none => simp at hsame
      | some K => exact ⟨⟨_, rfl⟩, by simp [eval_policy, make_sample_until]⟩
  · intro hdiff msg
    cases nt with
    | none =>
      cases ne with
      | none => simp at hdiff
      | some K =>
        cases rty with
        | none => exact finishRun_ne_configError _ msg
        | some r => exact finishRun_ne_configError _ msg
    | some T =>
      cases ne with
      | none =>
        cases rty with
        | none => exact finishRun_ne_configError _ msg
        | some r => exact finishRun_ne_configError _ msg
      | some K => simp at hdiff

/-- Witness for C3: with neither budget field set, `eval_policy` fails with
the configuration error and no environment is constructed; with exactly one
set, the result is not a configuration error. -/
theorem C3_stopping_config_validation_witness :
    ((∃ msg, (eval_policy ⟨none, none, false, 0, none⟩ testEnv 0 (fun _ => 0)
        (fun _ _ _ => 0) 5).1 = .error (.configError msg)) ∧
      TraceEv.makeVecEnv ∉ (eval_policy ⟨none, none, false, 0, none⟩ testEnv 0 (fun _ => 0)
        (fun _ _ _ => 0) 5).2) ∧
    ∀ msg, (eval_policy ⟨none, some 1, false, 0, none⟩ testEnv 0 (fun _ => 0)
        (fun _ _ _ => 0) 5).1 ≠ .error (.configError msg) := by
  constructor
  · exact (C3_stopping_config_validation ⟨none, none, false, 0, none⟩ testEnv 0 (fun _ => 0)
      (fun _ _ _ => 0) 5).1 rfl
  · exact (C3_stopping_config_validation ⟨none, some 1, false, 0, none⟩ testEnv 0 (fun _ => 0)
      (fun _ _ _ => 0) 5).2 (by simp)

/-- C2: on every execution of `eval_policy`, the scoped policy resource and
(when `reward_type` is set) the scoped reward resource are released on every
exit path: a resource's acquisition appears in the trace exactly when its
release does, and when the rollout raises (result `rolloutAborted`) the
releases are in the trace — they happened before the exception propagated to
the caller. -/
theorem C2_scoped_release {σ : Type} (cfg : EvalConfig) (venv : VecEnv σ) (s0 : σ)
    (policy : Obs → Act) (reward_fn : Obs → Act → Obs → Rew) (fuel : Nat) :
    ((TraceEv.acquirePolicy ∈ (eval_policy cfg venv s0 policy reward_fn fuel).2) ↔
      (TraceEv.releasePolicy ∈ (eval_policy cfg venv s0 policy reward_fn fuel).2)) ∧
    ((TraceEv.acquireReward ∈ (eval_policy cfg venv s0 policy reward_fn fuel).2) ↔
      (TraceEv.releaseReward ∈ (eval_policy cfg venv s0 policy reward_fn fuel).2)) ∧
    ((eval_policy cfg venv s0 policy reward_fn fuel).1 = .error .rolloutAborted →
      TraceEv.releasePolicy ∈ (eval_policy cfg venv s0 policy reward_fn fuel).2 ∧
        (cfg.reward_type.isSome = true →
          TraceEv.releaseReward ∈ (eval_policy cfg venv s0 policy reward_fn fuel).2)) := by
  obtain ⟨nt, ne, rend, fps, rty⟩ := cfg
  cases nt <;> cases ne <;> cases rty <;> cases rend <;>
    simp [eval_policy, make_sample_until]

/-- Witness for C2: a run whose rollout raises (zero fuel) with a reward
function in scope still records the release of both the policy and the
reward resource. -/
theorem C2_scoped_release_witness :
    TraceEv.releasePolicy ∈ (eval_policy ⟨none, some 1, false, 0, some "r"⟩ testEnv 0
      (fun _ => 0) (fun _ _ _ => 5) 0).2 ∧
    TraceEv.releaseReward ∈ (eval_policy ⟨none, some 1, false, 0, some "r"⟩ testEnv 0
      (fun _ => 0) (fun _ _ _ => 5) 0).2 := by
  have h := (C2_scoped_release ⟨none, some 1, false, 0, some "r"⟩ testEnv 0
    (fun _ => 0) (fun _ _ _ => 5) 0).2.2 rfl
  exact ⟨h.1, h.2 rfl⟩

/-- C8: whenever `eval_policy` succeeds, its result is exactly the
aggregated statistics `rollout_stats` computes over the trajectories
collected during that run's rollout — collected in the rendered environment
when no reward override is configured, in the reward-wrapped one
otherwise. -/
theorem C8_returns_stats {σ : Type} (cfg : EvalConfig) (venv : VecEnv σ) (s0 : σ)
    (policy : Obs → Act) (reward_fn : Obs → Act → Obs → Rew) (fuel : Nat) (st : Stats)
    (h : (eval_policy cfg venv s0 policy reward_fn fuel).1 = .ok st) :
    ∃ su trajs, make_sample_until cfg.eval_n_timesteps cfg.eval_n_episodes = .ok su ∧
      rollout_stats trajs = .ok st ∧
      ((cfg.reward_type = none ∧
          generate_trajectories policy (renderedEnv cfg venv) s0 su fuel = some trajs) ∨
        (cfg.reward_type.isSome = true ∧
          generate_trajectories policy (rolloutEnv cfg venv reward_fn) (s0, none) su fuel
            = some trajs)) := by
  obtain ⟨nt, ne, rend, fps, rty⟩ := cfg
  cases nt with
  | none =>
    cases ne with
    | none => simp [eval_policy, make_sample_until] at h
    | some K =>
      cases rty with
      | none =>
        rcases finishRun_ok _ _ h with ⟨trajs, hg, hs⟩
        exact ⟨_, trajs, rfl, hs, Or.inl ⟨rfl, hg⟩⟩
      | some r =>
        rcases finishRun_ok _ _ h with ⟨trajs, hg, hs⟩
        exact ⟨_, trajs, rfl, hs, Or.inr ⟨rfl, hg⟩⟩
  | some T =>
    cases ne with
    | none =>
      cases rty with
      | none =>
        rcases finishRun_ok _ _ h with ⟨trajs, hg, hs⟩
        exact ⟨_, trajs, rfl, hs, Or.inl ⟨rfl, hg⟩⟩
      | some r =>
        rcases finishRun_ok _ _ h with ⟨trajs, hg, hs⟩
        exact ⟨_, trajs, rfl, hs, Or.inr ⟨rfl, hg⟩⟩
    | some K => simp [eval_policy, make_sample_until] at h

/-- Witness for C8: a successful concrete run on `testEnv` returns exactly
the statistics of its two collected trajectories (two episodes of length 2
and return 14 each). -/
theorem C8_returns_stats_witness :
    ∃ su trajs, make_sample_until none (some 2) = .ok su ∧
      rollout_stats trajs = .ok ⟨2, 14, 0, 2, 0⟩ := by
  have h8 : (eval_policy ⟨none, some 2, false, 0, none⟩ testEnv 0 (fun _ => 0)
      (fun _ _ _ => 0) 12).1 = .ok ⟨2, 14, 0, 2, 0⟩ := by
    have hgen : generate_trajectories (fun _ => (0 : Act))
        (renderedEnv ⟨none, some 2, false, 0, none⟩ testEnv) 0
        (fun ts => decide (2 ≤ ts.length)) 12 = some [testTraj1, testTraj2] := rfl
    show finishRun (generate_trajectories (fun _ => (0 : Act))
        (renderedEnv ⟨none, some 2, false, 0, none⟩ testEnv) 0
        (fun ts => decide (2 ≤ ts.length)) 12) = .ok ⟨2, 14, 0, 2, 0⟩
    rw [hgen]
    norm_num [finishRun, rollout_stats, Except.mapError, listMean, listVar,
      Trajectory.ret, Trajectory.len, testTraj1, testTraj2, Stats.mk.injEq]
  rcases C8_returns_stats ⟨none, some 2, false, 0, none⟩ testEnv 0 (fun _ => 0)
      (fun _ _ _ => 0) 12 ⟨2, 14, 0, 2, 0⟩ h8 with ⟨su, trajs, hmk, hs, _⟩
  exact ⟨su, trajs, hmk, hs⟩

/-- C9: the reward-override wrapper is applied outside `InteractiveRender`
(render wrapping at line 100 precedes reward wrapping at line 107), so the
rollout environment is `RewardVecEnvWrapper (InteractiveRender ...)`; the
render wrapper forwards only the underlying environment's native reward,
while every trajectory the rollout collects carries the overridden rewards —
whatever the render flag is. -/
theorem C9_wrapper_order {σ : Type} (cfg : EvalConfig) (venv : VecEnv σ)
    (reward_fn : Obs → Act → Obs → Rew) (policy : Obs → Act)
    (su : List Trajectory → Bool) (fuel : Nat) (s0 : σ) (trajs : List Trajectory)
    (s : σ) (a : Act) :
    (cfg.render = true →
      rolloutEnv cfg venv reward_fn =
        RewardVecEnvWrapper (InteractiveRender venv cfg.render_fps) reward_fn) ∧
    (((InteractiveRender venv cfg.render_fps).step_fn s a).2.2.1
      = (venv.step_fn s a).2.2.1) ∧
    (generate_trajectories policy (rolloutEnv cfg venv reward_fn) (s0, none) su fuel
        = some trajs →
      ∀ t ∈ trajs, rewardsMatch reward_fn t = true) := by
  refine ⟨?_, rfl, ?_⟩
  · intro hrend
    simp [rolloutEnv, renderedEnv, hrend]
  · intro hgen t ht
    rcases (generate_trajectories_sound _ _ _ _ _ _ hgen).2 t ht with ⟨n, q, q1, hrun⟩
    exact runEpisode_rewards policy (renderedEnv cfg venv) reward_fn n q t q1 hrun

/-- Witness for C9: with render and a constant-5 reward override both
configured, the rollout environment is the reward wrapper around
`InteractiveRender`, and the trajectory collected in it carries the
overridden rewards. -/
theorem C9_wrapper_order_witness :
    rolloutEnv ⟨none, some 1, true, 0, some "r"⟩ testEnv (fun _ _ _ => (5 : Rew)) =
      RewardVecEnvWrapper (InteractiveRender testEnv 0) (fun _ _ _ => (5 : Rew)) ∧
    rewardsMatch (fun _ _ _ => (5 : Rew)) testTraj5 = true := by
  have h := C9_wrapper_order ⟨none, some 1, true, 0, some "r"⟩ testEnv (fun _ _ _ => (5 : Rew))
    (fun _ => 0) (fun ts => decide (1 ≤ ts.length)) 12 0 [testTraj5] 0 0
  exact ⟨h.1 rfl, h.2.2 rfl testTraj5 (by simp)⟩

